import Mathlib

/-!
Verification of the job lifecycle and credit-settlement subsystem of the
Auflow web front-end.  The definitions below are a shallow embedding of the
TypeScript source (`src/services/jobService.ts` and the job-related part of
`src/components/ViewSync.tsx`); network and browser effects are passed in
explicitly as environment records, so every function is pure and executable.
-/

/- ## JavaScript string primitives

The service code manipulates JS strings with `includes`, `startsWith` and
`toUpperCase`.  We model strings as their character lists. -/

/-- `isPrefixL p l` is true when `p` is a prefix of `l` (models
`String.prototype.startsWith`). -/
def isPrefixL : List Char → List Char → Bool
  | [], _ => true
  | _ :: _, [] => false
  | a :: as, b :: bs => a == b && isPrefixL as bs

/-- `containsL sub l` is true when `sub` occurs contiguously inside `l`
(models `String.prototype.includes`). -/
def containsL (sub : List Char) : List Char → Bool
  | [] => isPrefixL sub []
  | c :: rest => isPrefixL sub (c :: rest) || containsL sub rest

/-- JS `s.includes(sub)`. -/
def jsIncludes (s sub : String) : Bool := containsL sub.data s.data

/-- JS `s.startsWith(p)`. -/
def jsStartsWith (s p : String) : Bool := isPrefixL p.data s.data

/-- JS `String.prototype.toUpperCase`, character by character.  ASCII letters
are uppercased; of the non-ASCII code points only the Vietnamese letters that
occur in the classifier's markers matter, so they are mapped explicitly and
all remaining code points are left unchanged. -/
def jsToUpperChar (c : Char) : Char :=
  if c = 'ô' then 'Ô'
  else if c = 'đ' then 'Đ'
  else if c = 'ủ' then 'Ủ'
  else if c = 'ă' then 'Ă'
  else if c = 'ơ' then 'Ơ'
  else if c = 'ư' then 'Ư'
  else c.toUpper

/-- JS `s.toUpperCase()`. -/
def jsToUpperCase (s : String) : String := String.mk (s.data.map jsToUpperChar)

/-- JS truthiness of an optional string argument: `undefined`/absent and the
empty string are falsy. -/
def jsTruthy : Option String → Bool
  | none => false
  | some s => !(s == "")

/- ## Error classifier (`mapFriendlyErrorMessage`, src/services/jobService.ts
lines 12-42) -/

/-- Embedding of `mapFriendlyErrorMessage`: an empty message is the generic
backend error; the uppercased message is then matched against the
insufficient-credits marker and the safety/upload/validation markers in the
order the source writes them.  The `console.error` logging side effect is
dropped. -/
def mapFriendlyErrorMessage (errorMsg : String) : String :=
  if errorMsg = "" then "err.sys.google_generic"
  else if jsIncludes (jsToUpperCase errorMsg) "KHÔNG ĐỦ CREDITS" then
    "err.credit.insufficient_system"
  else if jsIncludes (jsToUpperCase errorMsg) "SAFETY_ERROR"
      || jsIncludes (jsToUpperCase errorMsg) "SAFETY"
      || jsIncludes (jsToUpperCase errorMsg) "BLOCK"
      || jsIncludes (jsToUpperCase errorMsg) "PROHIBITED"
      || jsIncludes (jsToUpperCase errorMsg) "UPLOAD FAILED"
      || jsIncludes (jsToUpperCase errorMsg) "INVALID_ARGUMENT"
      || jsIncludes (jsToUpperCase errorMsg) "400"
      || jsIncludes (jsToUpperCase errorMsg) "IMAGE_ASPECT_RATIO" then
    "SAFETY_POLICY_VIOLATION"
  else "err.sys.google_generic"

/-- The claim's ordered rule set, written from its words: empty → generic;
insufficient-credits marker → insufficient credits; a safety, block,
prohibited, upload-failure, invalid-argument, 400 or aspect-ratio marker →
`SAFETY_POLICY_VIOLATION`; everything else → generic.  (The source's extra
`SAFETY_ERROR` test is subsumed by the `SAFETY` marker.) -/
def classifyRules (errorMsg : String) : String :=
  if errorMsg = "" then "err.sys.google_generic"
  else if jsIncludes (jsToUpperCase errorMsg) "KHÔNG ĐỦ CREDITS" then
    "err.credit.insufficient_system"
  else if jsIncludes (jsToUpperCase errorMsg) "SAFETY"
      || jsIncludes (jsToUpperCase errorMsg) "BLOCK"
      || jsIncludes (jsToUpperCase errorMsg) "PROHIBITED"
      || jsIncludes (jsToUpperCase errorMsg) "UPLOAD FAILED"
      || jsIncludes (jsToUpperCase errorMsg) "INVALID_ARGUMENT"
      || jsIncludes (jsToUpperCase errorMsg) "400"
      || jsIncludes (jsToUpperCase errorMsg) "IMAGE_ASPECT_RATIO" then
    "SAFETY_POLICY_VIOLATION"
  else "err.sys.google_generic"

theorem isPrefixL_trans : ∀ (p q l : List Char),
    isPrefixL p q = true → isPrefixL q l = true → isPrefixL p l = true
  | [], _, _, _, _ => rfl
  | _ :: _, [], _, h1, _ => by simp [isPrefixL] at h1
  | _ :: _, _ :: _, [], _, h2 => by simp [isPrefixL] at h2
  | a :: as, b :: bs, c :: cs, h1, h2 => by
    simp only [isPrefixL, Bool.and_eq_true, beq_iff_eq] at h1 h2 ⊢
    exact ⟨h1.1.trans h2.1, isPrefixL_trans as bs cs h1.2 h2.2⟩

theorem containsL_mono (p sub : List Char) (hp : isPrefixL p sub = true) :
    ∀ l, containsL sub l = true → containsL p l = true := by
  intro l
  induction l with
  | nil =>
    intro h
    cases sub with
    | nil =>
      cases p with
      | nil => simp [containsL, isPrefixL]
      | cons a as => simp [isPrefixL] at hp
    | cons b bs => simp [containsL, isPrefixL] at h
  | cons c rest ih =>
    intro h
    simp only [containsL, Bool.or_eq_true] at h ⊢
    cases h with
    | inl h => exact Or.inl (isPrefixL_trans p sub (c :: rest) hp h)
    | inr h => exact Or.inr (ih h)

/-- C2: the error classifier matches case-insensitively against the claim's
fixed ordered rule set: empty string → generic backend error; a message
containing the insufficient-credits marker → insufficient credits; a message
containing a safety, block, prohibited, upload-failure, invalid-argument,
400 or aspect-ratio marker → `SAFETY_POLICY_VIOLATION`; anything else →
generic backend error. -/
theorem classifier_matches_ordered_rules (s : String) :
    mapFriendlyErrorMessage s = classifyRules s := by
  unfold mapFriendlyErrorMessage classifyRules
  by_cases hs : s = ""
  · simp [hs]
  · simp only [if_neg hs]
    by_cases hc : jsIncludes (jsToUpperCase s) "KHÔNG ĐỦ CREDITS" = true
    · simp [hc]
    · simp only [if_neg hc]
      cases hA0 : jsIncludes (jsToUpperCase s) "SAFETY_ERROR" with
      | false => simp [hA0]
      | true =>
        have hA : jsIncludes (jsToUpperCase s) "SAFETY" = true := by
          unfold jsIncludes at hA0 ⊢
          exact containsL_mono _ _ (by decide) _ hA0
        simp [hA0, hA]

/- ## Job rows and `updateJobStatus` (src/services/jobService.ts lines 190-219)

A job row mirrors the columns of the `generation_jobs` table that the service
reads or writes.  Timestamps are milliseconds since the epoch (the source
stores ISO-8601 UTC strings, whose lexicographic order agrees with time
order). -/

inductive JobStatus
  | pending
  | processing
  | completed
  | failed
deriving Repr, DecidableEq

structure JobRow where
  id : String
  user_id : String
  tool_id : String
  cost : Int
  usage_log_id : Option String
  status : JobStatus
  result_url : Option String
  error_message : Option String
  created_at : Int
  updated_at : Int
deriving Repr, DecidableEq

/-- The `updates` object assembled by `updateJobStatus` before the single
database write.  For the two nullable columns, the outer `Option` records
whether the field is present in `updates` at all; the inner value is the
written value (`none` models SQL `null`). -/
structure JobUpdates where
  status : JobStatus
  updated_at : Int
  error_message : Option (Option String)
  result_url : Option String
deriving Repr, DecidableEq

/-- JS `a || b` for a nullable string `a` and a string `b`: `b` when `a` is
null or empty, `a` otherwise (the `persistentUrl || resultUrl` fallback). -/
def jsOrElse : Option String → String → String
  | some p, r => if p == "" then r else p
  | none, r => r

/-- Embedding of the body of `updateJobStatus` up to the database write: the
`updates` object it assembles.  `ownerLookup` is the `user_id` returned by
the job query (none when the job row is missing) and `persisted` is the
value returned by `persistResultToStorage` when it is invoked; both are
outcomes of awaited calls, passed in as environment.  Field-assignment
order in the source makes a truthy `errorMessage` argument overwrite the
`null` stored for a completed status. -/
def buildJobUpdates (now : Int) (status : JobStatus)
    (resultUrl errorMessage : Option String)
    (ownerLookup persisted : Option String) : JobUpdates :=
  { status := status
    updated_at := now
    error_message :=
      if jsTruthy errorMessage then some errorMessage
      else if status = JobStatus.completed then some none
      else none
    result_url :=
      if jsTruthy resultUrl then
        match ownerLookup with
        | some _ => some (jsOrElse persisted (resultUrl.getD ""))
        | none => some (resultUrl.getD "")
      else none }

/-- Applying an `updates` object to a row: present fields overwrite, absent
fields keep the stored value. -/
def applyJobUpdates (row : JobRow) (u : JobUpdates) : JobRow :=
  { row with
    status := u.status
    updated_at := u.updated_at
    error_message :=
      match u.error_message with
      | some v => v
      | none => row.error_message
    result_url :=
      match u.result_url with
      | some v => some v
      | none => row.result_url }

/-- One successful `updateJobStatus` call acting on a stored row. -/
def updateJobStatusRow (now : Int) (row : JobRow) (status : JobStatus)
    (resultUrl errorMessage : Option String)
    (ownerLookup persisted : Option String) : JobRow :=
  applyJobUpdates row (buildJobUpdates now status resultUrl errorMessage ownerLookup persisted)

/-- A concrete stored row used by counterexamples and witnesses: a processing
job carrying a stale failure marker. -/
def sampleRow : JobRow :=
  { id := "j1", user_id := "u1", tool_id := "ViewSync", cost := 20
    usage_log_id := some "log1", status := JobStatus.processing
    result_url := none, error_message := some "old failure"
    created_at := 0, updated_at := 0 }

/-- C3 counterexample: a call `updateStatus(id, completed, url, "boom")` does
not end with `errorMessage = null` — the truthy `errorMessage` argument is
written after the completed-clears-null assignment and survives, refuting
"unconditionally, regardless of the other arguments passed in the same
call". -/
theorem update_completed_error_message_cex :
    (updateJobStatusRow 5 sampleRow JobStatus.completed (some "https://r.example/x.png")
        (some "boom") (some "u1") none).error_message ≠ none := by decide

/-- C3 (amended): for every call to `updateStatus` with status `completed`
whose `errorMessage` argument is absent or empty, the stored `errorMessage`
ends up null, regardless of the previously stored value and of the
`resultUrl` argument. -/
theorem update_completed_clears_error_message (now : Int) (row : JobRow)
    (resultUrl errorMessage ownerLookup persisted : Option String)
    (hem : jsTruthy errorMessage = false) :
    (updateJobStatusRow now row JobStatus.completed resultUrl errorMessage
        ownerLookup persisted).error_message = none := by
  unfold updateJobStatusRow applyJobUpdates buildJobUpdates
  simp [hem]

/-- C3 witness: the amended theorem applied to the sample row with a stored
failure marker and a `resultUrl` argument. -/
theorem update_completed_clears_error_message_witness :
    (updateJobStatusRow 5 sampleRow JobStatus.completed (some "https://r.example/x.png")
        none (some "u1") none).error_message = none :=
  update_completed_clears_error_message 5 sampleRow (some "https://r.example/x.png")
    none (some "u1") none rfl

/- ## Asset persister (`persistResultToStorage`, src/services/jobService.ts
lines 70-146)

The function's awaited effects — base64 decoding into a `Blob`, the three
kinds of fetch, the storage upload and the public-URL lookup — are supplied
by a `PersistEnv` record; `none` models a rejected promise or a thrown
exception at that step.  The result records the returned value together with
how many uploads and proxy fetches were performed. -/

structure Blob where
  type : String
deriving Repr, DecidableEq

structure PersistEnv where
  decodeData : String → Option Blob
  blobFetch : String → Option Blob
  directFetch : String → Option Blob
  proxyFetch : String → Option Blob
  uploadError : Bool
  publicUrl : String → String
  fileStem : String

structure PersistResult where
  result : Option String
  uploads : Nat
  proxyCalls : Nat
deriving Repr, DecidableEq

/-- The short-circuit test of line 72: the URL already lives in this
system's storage (`supabase.co` host and the `assets` bucket marker). -/
def isDurableUrl (data : String) : Bool :=
  jsIncludes data "supabase.co" && jsIncludes data "assets"

/-- Extension selection of the remote branch (lines 108-113): `mp4` for
video-typed blobs or `.mp4` URLs, `mov` for QuickTime, otherwise the `webp`
initial value. -/
def remoteExtension (blob : Blob) (data : String) : String :=
  if jsIncludes blob.type "video" || jsIncludes data ".mp4" then "mp4"
  else if jsIncludes blob.type "quicktime" then "mov"
  else "webp"

/-- The tail of `persistResultToStorage` once a blob is in hand (lines
118-140): images are re-encoded to webp, the namespaced file name is built,
and the upload either fails (`null` returned) or yields the public URL. -/
def uploadStep (env : PersistEnv) (userId : String) (blob : Blob)
    (extension : String) (proxyCalls : Nat) : PersistResult :=
  let ext := if jsStartsWith blob.type "image/" then "webp" else extension
  let fileName := userId ++ "/jobs/" ++ env.fileStem ++ "." ++ ext
  if env.uploadError then ⟨none, 1, proxyCalls⟩
  else ⟨some (env.publicUrl fileName), 1, proxyCalls⟩

/-- Embedding of `persistResultToStorage`.  Every failure path returns
`none` (the source's outer `try`/`catch` and explicit `return null`s); the
function itself is total, so it can never raise. -/
def persistResultToStorage (env : PersistEnv) (userId data : String) : PersistResult :=
  if isDurableUrl data then ⟨some data, 0, 0⟩
  else if jsStartsWith data "data:" then
    match env.decodeData data with
    | none => ⟨none, 0, 0⟩
    | some blob => uploadStep env userId blob "webp" 0
  else if jsStartsWith data "blob:" then
    match env.blobFetch data with
    | none => ⟨none, 0, 0⟩
    | some blob =>
      uploadStep env userId blob (if jsStartsWith blob.type "video" then "mp4" else "webp") 0
  else if jsStartsWith data "http" then
    match env.directFetch data with
    | some blob => uploadStep env userId blob (remoteExtension blob data) 0
    | none =>
      match env.proxyFetch data with
      | none => ⟨none, 0, 1⟩
      | some blob => uploadStep env userId blob (remoteExtension blob data) 1
  else ⟨some data, 0, 0⟩

theorem persist_durable_aux (env : PersistEnv) (userId data : String)
    (h : isDurableUrl data = true) :
    persistResultToStorage env userId data = ⟨some data, 0, 0⟩ := by
  unfold persistResultToStorage
  simp [h]

theorem persist_passthrough_aux (env : PersistEnv) (userId data : String)
    (h1 : isDurableUrl data = false) (h2 : jsStartsWith data "data:" = false)
    (h3 : jsStartsWith data "blob:" = false) (h4 : jsStartsWith data "http" = false) :
    persistResultToStorage env userId data = ⟨some data, 0, 0⟩ := by
  unfold persistResultToStorage
  simp [h1, h2, h3, h4]

theorem uploadStep_proxyCalls (env : PersistEnv) (userId : String) (blob : Blob)
    (extension : String) (pc : Nat) :
    (uploadStep env userId blob extension pc).proxyCalls = pc := by
  unfold uploadStep
  by_cases hup : env.uploadError = true <;> simp [hup]

theorem uploadStep_result_none (env : PersistEnv) (userId : String) (blob : Blob)
    (extension : String) (pc : Nat) :
    ((uploadStep env userId blob extension pc).result = none ↔ env.uploadError = true) := by
  unfold uploadStep
  by_cases hup : env.uploadError = true <;> simp [hup]

theorem uploadStep_stable (env : PersistEnv) (userId : String) (blob : Blob)
    (extension : String) (pc' : Nat)
    (hpub : ∀ f, isDurableUrl (env.publicUrl f) = true) :
    ∀ r n pc, uploadStep env userId blob extension pc' = ⟨some r, n, pc⟩ →
      persistResultToStorage env userId r = ⟨some r, 0, 0⟩ := by
  intro r n pc hp
  unfold uploadStep at hp
  by_cases hup : env.uploadError = true
  · simp [hup] at hp
  · simp only [hup, if_false, Bool.false_eq_true, ite_false] at hp
    have hr : env.publicUrl (userId ++ "/jobs/" ++ env.fileStem ++ "."
        ++ (if jsStartsWith blob.type "image/" then "webp" else extension)) = r := by
      have := congrArg PersistResult.result hp
      simpa using this
    rw [← hr]
    exact persist_durable_aux env userId _ (hpub _)

theorem persist_result_stable (env : PersistEnv) (userId x : String)
    (hpub : ∀ f, isDurableUrl (env.publicUrl f) = true) :
    ∀ r n pc, persistResultToStorage env userId x = ⟨some r, n, pc⟩ →
      persistResultToStorage env userId r = ⟨some r, 0, 0⟩ := by
  intro r n pc hp
  unfold persistResultToStorage at hp
  by_cases h1 : isDurableUrl x = true
  · simp only [h1, if_true] at hp
    have hr : x = r := by
      have := congrArg PersistResult.result hp
      simpa using this
    subst hr
    exact persist_durable_aux env userId x h1
  · simp only [h1, Bool.false_eq_true, if_false] at hp
    by_cases h2 : jsStartsWith x "data:" = true
    · simp only [h2, if_true] at hp
      cases hdec : env.decodeData x with
      | none => rw [hdec] at hp; simp at hp
      | some blob =>
        rw [hdec] at hp
        exact uploadStep_stable env userId blob "webp" 0 hpub r n pc hp
    · simp only [h2, Bool.false_eq_true, if_false] at hp
      by_cases h3 : jsStartsWith x "blob:" = true
      · simp only [h3, if_true] at hp
        cases hb : env.blobFetch x with
        | none => rw [hb] at hp; simp at hp
        | some blob =>
          rw [hb] at hp
          exact uploadStep_stable env userId blob _ 0 hpub r n pc hp
      · simp only [h3, Bool.false_eq_true, if_false] at hp
        by_cases h4 : jsStartsWith x "http" = true
        · simp only [h4, if_true] at hp
          cases hdir : env.directFetch x with
          | some blob =>
            rw [hdir] at hp
            exact uploadStep_stable env userId blob _ 0 hpub r n pc hp
          | none =>
            rw [hdir] at hp
            cases hprox : env.proxyFetch x with
            | none => rw [hprox] at hp; simp at hp
            | some blob =>
              rw [hprox] at hp
              exact uploadStep_stable env userId blob _ 1 hpub r n pc hp
        · simp only [h4, Bool.false_eq_true, if_false] at hp
          have hr : x = r := by
            have := congrArg PersistResult.result hp
            simpa using this
          subst hr
          exact persist_passthrough_aux env userId x
            (by simpa using h1) (by simpa using h2) (by simpa using h3) (by simpa using h4)

/-- C5: `persist` is idempotent on already-durable URLs.  First conjunct: a
source string carrying the bucket marker is returned unchanged with no
upload and no proxy fetch.  Second conjunct: whenever the storage client's
public URLs carry the marker (as Supabase's do), re-persisting any
successful `persist` result is a no-op returning the same URL with zero
further uploads, so `persist(u, persist(u, x))` costs a single upload in
total. -/
theorem persist_idempotent_on_durable (env : PersistEnv) (userId : String) :
    (∀ data, isDurableUrl data = true →
        persistResultToStorage env userId data = ⟨some data, 0, 0⟩)
    ∧ ((∀ f, isDurableUrl (env.publicUrl f) = true) →
        ∀ x r n pc, persistResultToStorage env userId x = ⟨some r, n, pc⟩ →
          persistResultToStorage env userId r = ⟨some r, 0, 0⟩) :=
  ⟨fun data h => persist_durable_aux env userId data h,
   fun hpub x => persist_result_stable env userId x hpub⟩

/-- An environment whose decode and upload steps succeed; its public URLs
are the fixed durable storage URL.  Used by the C5 witness. -/
def envUploadsOk : PersistEnv :=
  { decodeData := fun _ => some { type := "image/png" }
    blobFetch := fun _ => none
    directFetch := fun _ => none
    proxyFetch := fun _ => none
    uploadError := false
    publicUrl := fun _ => "https://proj.supabase.co/storage/v1/object/public/assets/out.webp"
    fileStem := "1700000000000_ab12cd3" }

/-- C5 witness: persisting a data URI uploads once and yields the durable
URL; re-persisting that URL is the identity with zero uploads. -/
theorem persist_idempotent_on_durable_witness :
    persistResultToStorage envUploadsOk "u1"
        "https://proj.supabase.co/storage/v1/object/public/assets/out.webp"
      = ⟨some "https://proj.supabase.co/storage/v1/object/public/assets/out.webp", 0, 0⟩ :=
  (persist_idempotent_on_durable envUploadsOk "u1").2
    (fun _ => (by decide :
      isDurableUrl "https://proj.supabase.co/storage/v1/object/public/assets/out.webp" = true))
    "data:image/png;base64,iVBORw0KGgo="
    "https://proj.supabase.co/storage/v1/object/public/assets/out.webp" 1 0 (by decide)

/-- C6 counterexample environment: direct fetch fails, the proxy fetch
succeeds, but the storage upload then fails. -/
def envProxyOkUploadFail : PersistEnv :=
  { decodeData := fun _ => none
    blobFetch := fun _ => none
    directFetch := fun _ => none
    proxyFetch := fun _ => some { type := "image/png" }
    uploadError := true
    publicUrl := fun _ => "https://proj.supabase.co/storage/v1/object/public/assets/out.webp"
    fileStem := "1700000000000_ab12cd3" }

/-- C6 counterexample: `persist` returns null for a remote URL even though
the proxy fetch succeeded — the subsequent upload failed — refuting "only
when the proxy fetch also fails does persist return null". -/
theorem persist_null_despite_proxy_success_cex :
    (persistResultToStorage envProxyOkUploadFail "u1" "http://example.com/a.png").result = none
    ∧ envProxyOkUploadFail.proxyFetch "http://example.com/a.png" = some { type := "image/png" } :=
  ⟨by decide, rfl⟩

/-- C6 (amended): `persist` is total (never raises) and every decode, fetch
or upload failure makes it return null: a data URI whose decode throws
yields null; a blob reference whose fetch rejects yields null; a remote
URL is fetched through the proxy exactly once when the direct fetch fails
and never otherwise; when both fetches fail the result is null with no
upload; and when the proxy fetch succeeds the result is null exactly when
the subsequent upload fails. -/
theorem persist_failure_policy (env : PersistEnv) (userId data : String)
    (hd : isDurableUrl data = false) :
    (jsStartsWith data "data:" = true → env.decodeData data = none →
        persistResultToStorage env userId data = ⟨none, 0, 0⟩)
    ∧ (jsStartsWith data "data:" = false → jsStartsWith data "blob:" = true →
        env.blobFetch data = none →
        persistResultToStorage env userId data = ⟨none, 0, 0⟩)
    ∧ (jsStartsWith data "data:" = false → jsStartsWith data "blob:" = false →
        jsStartsWith data "http" = true →
        ((∀ b, env.directFetch data = some b →
            (persistResultToStorage env userId data).proxyCalls = 0)
         ∧ (env.directFetch data = none →
            (persistResultToStorage env userId data).proxyCalls = 1)
         ∧ (env.directFetch data = none → env.proxyFetch data = none →
            persistResultToStorage env userId data = ⟨none, 0, 1⟩)
         ∧ (∀ b, env.directFetch data = none → env.proxyFetch data = some b →
            ((persistResultToStorage env userId data).result = none
              ↔ env.uploadError = true))))
    ∧ (∀ blob extension pc, env.uploadError = true →
        uploadStep env userId blob extension pc = ⟨none, 1, pc⟩) := by
  refine ⟨?_, ?_, ?_, ?_⟩
  · intro h2 hdec
    unfold persistResultToStorage
    simp [hd, h2, hdec]
  · intro h2 h3 hb
    unfold persistResultToStorage
    simp [hd, h2, h3, hb]
  · intro h2 h3 h4
    refine ⟨?_, ?_, ?_, ?_⟩
    · intro b hdir
      unfold persistResultToStorage
      simp [hd, h2, h3, h4, hdir, uploadStep_proxyCalls]
    · intro hdir
      unfold persistResultToStorage
      cases hprox : env.proxyFetch data with
      | none => simp [hd, h2, h3, h4, hdir, hprox]
      | some blob => simp [hd, h2, h3, h4, hdir, hprox, uploadStep_proxyCalls]
    · intro hdir hprox
      unfold persistResultToStorage
      simp [hd, h2, h3, h4, hdir, hprox]
    · intro b hdir hprox
      unfold persistResultToStorage
      simp [hd, h2, h3, h4, hdir, hprox, uploadStep_result_none]
  · intro blob extension pc hup
    unfold uploadStep
    simp [hup]

/-- C6 witness: the amended theorem applied to the
proxy-succeeds-upload-fails environment on a remote URL. -/
theorem persist_failure_policy_witness :
    (persistResultToStorage envProxyOkUploadFail "u1" "http://example.com/b.png").result = none :=
  (((persist_failure_policy envProxyOkUploadFail "u1" "http://example.com/b.png"
      (by decide)).2.2.1 (by decide) (by decide) (by decide)).2.2.2
    { type := "image/png" } rfl rfl).mpr rfl

/-- C10 (implicit): a source string that is not an already-durable storage
URL and has none of the `data:`, `blob:`, `http` prefixes is returned
unchanged — no null, no exception, no upload, no proxy fetch. -/
theorem persist_passthrough_unrecognized (env : PersistEnv) (userId data : String)
    (h1 : isDurableUrl data = false) (h2 : jsStartsWith data "data:" = false)
    (h3 : jsStartsWith data "blob:" = false) (h4 : jsStartsWith data "http" = false) :
    persistResultToStorage env userId data = ⟨some data, 0, 0⟩ :=
  persist_passthrough_aux env userId data h1 h2 h3 h4

/-- C10 witness: an unrecognized scheme passes through untouched. -/
theorem persist_passthrough_unrecognized_witness :
    persistResultToStorage envUploadsOk "u1" "ipfs://bafybeigdyrzt" = ⟨some "ipfs://bafybeigdyrzt", 0, 0⟩ :=
  persist_passthrough_unrecognized envUploadsOk "u1" "ipfs://bafybeigdyrzt"
    (by decide) (by decide) (by decide) (by decide)

/- ## `createJob` with retry (src/services/jobService.ts lines 151-188)

An insert attempt either fails with a Postgrest error (code and message) or
returns the list of ids of the inserted rows.  `env n` is the outcome of the
`n`-th attempt (0-based).  The result carries the accumulated backoff delay
in milliseconds (one fixed 1000 ms wait per retry); the clearing of the three
localStorage transaction markers on success is a browser side effect outside
the claims and is not modelled. -/

inductive InsertOutcome
  | err (code msg : String)
  | ok (ids : List String)
deriving Repr, DecidableEq

/-- The retry condition of line 166: Postgres foreign-key-violation code
`23503`, or a message mentioning `foreign key`. -/
def isFkClass (code msg : String) : Bool :=
  code == "23503" || jsIncludes msg "foreign key"

/-- The message of the error surfaced by the outer catch of lines 184-187:
`e.message` when non-empty, otherwise the fixed Vietnamese fallback. -/
def createErrMsg (msg : String) : String :=
  if msg == "" then "Không thể khởi tạo bản ghi công việc." else msg

structure CreateResult where
  outcome : Except String String
  delayMs : Nat
deriving Repr

/-- Embedding of `createJob`: recursion on the remaining `retries` budget
(default 2 in the source), `attempt` numbering the insert attempts. -/
def createJobModel (env : Nat → InsertOutcome) : Nat → Nat → CreateResult
  | 0, attempt =>
    match env attempt with
    | .err _ msg => ⟨Except.error (createErrMsg msg), 0⟩
    | .ok [] => ⟨Except.error "Insert succeeded but no ID returned (RLS Issue)", 0⟩
    | .ok (i :: _) => ⟨Except.ok i, 0⟩
  | r + 1, attempt =>
    match env attempt with
    | .err code msg =>
      if isFkClass code msg then
        ⟨(createJobModel env r (attempt + 1)).outcome,
         (createJobModel env r (attempt + 1)).delayMs + 1000⟩
      else ⟨Except.error (createErrMsg msg), 0⟩
    | .ok [] => ⟨Except.error "Insert succeeded but no ID returned (RLS Issue)", 0⟩
    | .ok (i :: _) => ⟨Except.ok i, 0⟩

/-- Attempt `j` fails with a foreign-key-class error. -/
def IsFkAt (env : Nat → InsertOutcome) (j : Nat) : Prop :=
  ∃ code msg, env j = InsertOutcome.err code msg ∧ isFkClass code msg = true

theorem createJob_ok_aux (env : Nat → InsertOutcome) :
    ∀ (k retries start : Nat) (i : String) (rest : List String),
      k ≤ retries →
      (∀ j, j < k → IsFkAt env (start + j)) →
      env (start + k) = InsertOutcome.ok (i :: rest) →
      createJobModel env retries start = ⟨Except.ok i, 1000 * k⟩ := by
  intro k
  induction k with
  | zero =>
    intro retries start i rest _ _ hok
    rw [Nat.add_zero] at hok
    cases retries with
    | zero => simp [createJobModel, hok]
    | succ r => simp [createJobModel, hok]
  | succ k ih =>
    intro retries start i rest hk hfk hok
    obtain ⟨code, msg, henv, hfkc⟩ := hfk 0 (Nat.succ_pos k)
    rw [Nat.add_zero] at henv
    cases retries with
    | zero => exact absurd hk (by omega)
    | succ r =>
      have hfk' : ∀ j, j < k → IsFkAt env (start + 1 + j) := by
        intro j hj
        have := hfk (j + 1) (by omega)
        rwa [show start + (j + 1) = start + 1 + j by omega] at this
      have hok' : env (start + 1 + k) = InsertOutcome.ok (i :: rest) := by
        rwa [show start + (k + 1) = start + 1 + k by omega] at hok
      have hrec := ih r (start + 1) i rest (by omega) hfk' hok'
      simp [createJobModel, henv, hfkc, hrec, Nat.mul_succ]

theorem createJob_exhaust_aux (env : Nat → InsertOutcome) :
    ∀ (retries start : Nat),
      (∀ j, j ≤ retries → IsFkAt env (start + j)) →
      ∃ m, createJobModel env retries start = ⟨Except.error m, 1000 * retries⟩ := by
  intro retries
  induction retries with
  | zero =>
    intro start hfk
    obtain ⟨code, msg, henv, _⟩ := hfk 0 (Nat.le_refl 0)
    rw [Nat.add_zero] at henv
    exact ⟨createErrMsg msg, by simp [createJobModel, henv]⟩
  | succ r ih =>
    intro start hfk
    obtain ⟨code, msg, henv, hfkc⟩ := hfk 0 (by omega)
    rw [Nat.add_zero] at henv
    obtain ⟨m, hm⟩ := ih (start + 1) (fun j hj => by
      have := hfk (j + 1) (by omega)
      rwa [show start + (j + 1) = start + 1 + j by omega] at this)
    exact ⟨m, by simp [createJobModel, henv, hfkc, hm, Nat.mul_succ]⟩

/-- C7: `createJob` retries a foreign-key-class insert failure after a fixed
1-second backoff, up to `retries` times (default 2).  If the condition
clears at attempt `k ≤ retries`, it returns the new id having waited
`1000·k` ms; if all `retries + 1` attempts fail with the foreign-key class,
it surfaces a `JobCreationError` (modelled as the `Except.error` outcome)
after `1000·retries` ms of backoff; and an insert that reports success
without an identifier also surfaces the error. -/
theorem createJob_fk_retry (env : Nat → InsertOutcome) (retries : Nat) :
    (∀ k i rest, k ≤ retries → (∀ j, j < k → IsFkAt env j) →
        env k = InsertOutcome.ok (i :: rest) →
        createJobModel env retries 0 = ⟨Except.ok i, 1000 * k⟩)
    ∧ ((∀ j, j ≤ retries → IsFkAt env j) →
        ∃ m, createJobModel env retries 0 = ⟨Except.error m, 1000 * retries⟩)
    ∧ (env 0 = InsertOutcome.ok [] →
        createJobModel env retries 0
          = ⟨Except.error "Insert succeeded but no ID returned (RLS Issue)", 0⟩) := by
  refine ⟨?_, ?_, ?_⟩
  · intro k i rest hk hfk hok
    exact createJob_ok_aux env k retries 0 i rest hk
      (fun j hj => by simpa using hfk j hj) (by simpa using hok)
  · intro hfk
    exact createJob_exhaust_aux env retries 0 (fun j hj => by simpa using hfk j hj)
  · intro h0
    cases retries with
    | zero => simp [createJobModel, h0]
    | succ r => simp [createJobModel, h0]

/-- Insert environment for the C7 witness: the first attempt hits a
foreign-key violation, the second succeeds. -/
def envFkOnce : Nat → InsertOutcome := fun n =>
  if n = 0 then
    InsertOutcome.err "23503" "insert or update violates foreign key constraint"
  else InsertOutcome.ok ["job-42"]

/-- C7 witness: with the default budget of 2 retries, one foreign-key
failure followed by a successful insert returns the new id after a single
1-second backoff. -/
theorem createJob_fk_retry_witness :
    createJobModel envFkOnce 2 0 = ⟨Except.ok "job-42", 1000⟩ := by
  have h := (createJob_fk_retry envFkOnce 2).1 1 "job-42" [] (by omega)
    (by
      intro j hj
      have hj0 : j = 0 := by omega
      subst hj0
      exact ⟨"23503", "insert or update violates foreign key constraint", by decide, by decide⟩)
    (by decide)
  simpa using h

/- ## Stuck-job sweep (`cleanupStuckJobs`, src/services/jobService.ts lines
233-280)

The sweep first selects, via the database query, the caller's `processing`
jobs created strictly before `now - 15 min`, then loops over them: video
jobs younger than 60 minutes are skipped; eligible jobs are refunded through
`refundCredits` and then marked failed through `updateJobStatus` (which
swallows its own errors and never throws).  `refundCredits` however can
reject; the loop has no per-job handler, so such an error propagates to the
function's outer catch, which logs it and returns — remaining jobs are left
unprocessed.  The result records the refund calls performed, the
mark-failed calls performed, and whether the sweep was aborted that way. -/

structure SweepEnv where
  refundOk : String → Bool

structure SweepResult where
  refunds : List (String × Int × String)
  failedUpdates : List (String × String)
  aborted : Bool
deriving Repr, DecidableEq

/-- The fixed diagnostic message of line 274. -/
def timeoutMsg : String := "System Timeout: Auto-refunded due to inactivity"

/-- The selection predicate of the query (lines 238-243): owner, status
`processing`, created strictly before the 15-minute base threshold. -/
def stuckSelect (now : Int) (u : String) (j : JobRow) : Bool :=
  j.user_id == u && decide (j.status = JobStatus.processing)
    && decide (j.created_at < now - 900000)

/-- The skip test of lines 257-264: a video-generation job whose elapsed
time is under 60 minutes is left alone (`minutesElapsed < 60` over the
reals is `now - created < 3600000` over milliseconds). -/
def videoSkip (now : Int) (j : JobRow) : Bool :=
  j.tool_id == "VideoGeneration" && decide (now - j.created_at < 3600000)

/-- The refund guard of line 269: a truthy `usage_log_id` and positive
cost. -/
def refundEligible (j : JobRow) : Bool :=
  jsTruthy j.usage_log_id && decide (0 < j.cost)

/-- The reconciliation loop of lines 254-275 over the selected jobs. -/
def sweepLoop (env : SweepEnv) (now : Int) (u : String) : List JobRow → SweepResult
  | [] => ⟨[], [], false⟩
  | job :: rest =>
    if videoSkip now job then sweepLoop env now u rest
    else if refundEligible job then
      if env.refundOk (job.usage_log_id.getD "") then
        ⟨(u, job.cost, job.usage_log_id.getD "") :: (sweepLoop env now u rest).refunds,
         (job.id, timeoutMsg) :: (sweepLoop env now u rest).failedUpdates,
         (sweepLoop env now u rest).aborted⟩
      else ⟨[], [], true⟩
    else
      ⟨(sweepLoop env now u rest).refunds,
       (job.id, timeoutMsg) :: (sweepLoop env now u rest).failedUpdates,
       (sweepLoop env now u rest).aborted⟩

/-- Embedding of `cleanupStuckJobs`: query selection followed by the loop. -/
def cleanupStuckJobs (env : SweepEnv) (now : Int) (u : String)
    (jobs : List JobRow) : SweepResult :=
  sweepLoop env now u (jobs.filter (stuckSelect now u))

/-- The claim's acting predicate: a `processing` job of this user past its
effective threshold — 60 minutes elapsed for the video-generation tool,
more than 15 minutes for every other tool. -/
def pastEffectiveThreshold (now : Int) (u : String) (j : JobRow) : Bool :=
  j.user_id == u && decide (j.status = JobStatus.processing)
    && (if j.tool_id == "VideoGeneration" then decide ((3600000 : Int) ≤ now - j.created_at)
        else decide (j.created_at < now - 900000))

theorem sweepLoop_spec (env : SweepEnv) (now : Int) (u : String)
    (h : ∀ lg, env.refundOk lg = true) :
    ∀ l : List JobRow,
      sweepLoop env now u l =
        ⟨((l.filter (fun j => !videoSkip now j)).filter refundEligible).map
            (fun j => (u, j.cost, j.usage_log_id.getD "")),
         (l.filter (fun j => !videoSkip now j)).map (fun j => (j.id, timeoutMsg)),
         false⟩ := by
  intro l
  induction l with
  | nil => rfl
  | cons job rest ih =>
    by_cases hskip : videoSkip now job = true
    · simp [sweepLoop, hskip, ih]
    · by_cases hre : refundEligible job = true
      · simp [sweepLoop, hskip, hre, h, ih]
      · simp [sweepLoop, hskip, hre, ih]

theorem filter_filter_eq {α : Type} (p q r : α → Bool)
    (hpq : ∀ a, (p a && q a) = r a) :
    ∀ l : List α, (l.filter p).filter q = l.filter r := by
  intro l
  induction l with
  | nil => rfl
  | cons a l ih =>
    by_cases hp : p a = true
    · by_cases hq : q a = true
      · have hr : r a = true := by rw [← hpq]; simp [hp, hq]
        simp [List.filter_cons, hp, hq, hr, ih]
      · have hr : r a = false := by rw [← hpq]; simp [hp, hq]
        simp [List.filter_cons, hp, hq, hr, ih]
    · have hr : r a = false := by rw [← hpq]; simp [hp]
      simp [List.filter_cons, hp, hr, ih]

theorem past_eq_select_and_not_skip (now : Int) (u : String) (j : JobRow) :
    (stuckSelect now u j && !videoSkip now j) = pastEffectiveThreshold now u j := by
  unfold stuckSelect videoSkip pastEffectiveThreshold
  by_cases hu : (j.user_id == u) = true
  · by_cases hs : j.status = JobStatus.processing
    · by_cases hv : (j.tool_id == "VideoGeneration") = true
      · by_cases h60 : (3600000 : Int) ≤ now - j.created_at
        · simp [hu, hs, hv, h60, show j.created_at < now - 900000 by omega,
            show ¬(now - j.created_at < 3600000) by omega]
        · simp [hu, hs, hv, h60, show now - j.created_at < 3600000 by omega]
      · simp [hu, hs, hv]
    · simp [hs]
  · simp [hu]

/-- C8: with every ledger refund call succeeding, the sweep acts exactly on
the caller's `processing` jobs past their effective threshold — 60 minutes
elapsed for jobs of the video-generation tool, more than 15 minutes for all
others.  Each acted-on job is marked failed with the fixed timeout message,
and is refunded its `cost` against its `usage_log_id` exactly when that id
is present and the cost is positive.  A 40-minute-old video job is below
its threshold and hence untouched (see the witness). -/
theorem cleanup_acts_on_effective_threshold (env : SweepEnv) (now : Int)
    (u : String) (jobs : List JobRow) (h : ∀ lg, env.refundOk lg = true) :
    cleanupStuckJobs env now u jobs =
      ⟨((jobs.filter (pastEffectiveThreshold now u)).filter refundEligible).map
          (fun j => (u, j.cost, j.usage_log_id.getD "")),
       (jobs.filter (pastEffectiveThreshold now u)).map (fun j => (j.id, timeoutMsg)),
       false⟩ := by
  unfold cleanupStuckJobs
  rw [sweepLoop_spec env now u h,
    filter_filter_eq (stuckSelect now u) (fun j => !videoSkip now j)
      (pastEffectiveThreshold now u) (past_eq_select_and_not_skip now u) jobs]

def envRefundAll : SweepEnv := ⟨fun _ => true⟩

/-- A `processing` video-generation job 40 minutes old at `now = 10^8`. -/
def videoStuck40 : JobRow :=
  { id := "jv", user_id := "u1", tool_id := "VideoGeneration", cost := 30
    usage_log_id := some "logv", status := JobStatus.processing
    result_url := none, error_message := none
    created_at := 97600000, updated_at := 97600000 }

/-- A `processing` non-video job 20 minutes old at `now = 10^8`. -/
def imageStuck20 : JobRow :=
  { id := "ji", user_id := "u1", tool_id := "ViewSync", cost := 20
    usage_log_id := some "logi", status := JobStatus.processing
    result_url := none, error_message := none
    created_at := 98800000, updated_at := 98800000 }

/-- C8 witness: sweeping a 40-minute-old video job together with a
20-minute-old image job refunds and fails only the image job; the video
job is left untouched. -/
theorem cleanup_acts_on_effective_threshold_witness :
    cleanupStuckJobs envRefundAll 100000000 "u1" [videoStuck40, imageStuck20]
      = ⟨[("u1", 20, "logi")], [("ji", timeoutMsg)], false⟩ :=
  (cleanup_acts_on_effective_threshold envRefundAll 100000000 "u1"
      [videoStuck40, imageStuck20] (fun _ => rfl)).trans (by decide)

/-- Sweep environment whose ledger rejects the refund for `log1` and accepts
every other transaction id. -/
def envRefundFailFirst : SweepEnv := ⟨fun lg => !(lg == "log1")⟩

/-- A stuck non-video job whose refund will fail (`log1`). -/
def stuckA : JobRow :=
  { id := "ja", user_id := "u1", tool_id := "ViewSync", cost := 20
    usage_log_id := some "log1", status := JobStatus.processing
    result_url := none, error_message := none
    created_at := 98800000, updated_at := 98800000 }

/-- A second stuck non-video job, selected by the same sweep (`log2`). -/
def stuckB : JobRow :=
  { id := "jb", user_id := "u1", tool_id := "ViewSync", cost := 20
    usage_log_id := some "log2", status := JobStatus.processing
    result_url := none, error_message := none
    created_at := 98800000, updated_at := 98800000 }

/-- C9 counterexample: with two selected stuck jobs, an error thrown by the
first job's refund reaches the sweep's outer catch and aborts it — the
second stuck job, although selected, is neither refunded nor marked
failed, refuting "every remaining stuck job in the selection is still
processed". -/
theorem cleanup_refund_error_aborts_cex :
    stuckSelect 100000000 "u1" stuckB = true
    ∧ cleanupStuckJobs envRefundFailFirst 100000000 "u1" [stuckA, stuckB]
        = ⟨[], [], true⟩ :=
  ⟨by decide, by decide⟩

/-- C9 (amended): `updateJobStatus` swallows its own errors, so a failing
status update never aborts the sweep; but an error raised by a job's
refund propagates to `cleanupStuckJobs`' outer catch, which logs it and
stops.  Precisely: if the selected jobs split as `pre ++ j :: post` where
the loop traverses `pre` without aborting, `j` is not skipped, is
refund-eligible, and its refund call fails, then the sweep ends aborted
with exactly the effects accumulated over `pre` — `j` is not marked failed
and `post` is never reached. -/
theorem cleanup_refund_error_aborts (env : SweepEnv) (now : Int) (u : String)
    (jobs pre post : List JobRow) (j : JobRow)
    (hsplit : jobs.filter (stuckSelect now u) = pre ++ j :: post)
    (hpre : (sweepLoop env now u pre).aborted = false)
    (hskip : videoSkip now j = false)
    (hre : refundEligible j = true)
    (hfail : env.refundOk (j.usage_log_id.getD "") = false) :
    cleanupStuckJobs env now u jobs =
      ⟨(sweepLoop env now u pre).refunds, (sweepLoop env now u pre).failedUpdates, true⟩ := by
  unfold cleanupStuckJobs
  rw [hsplit]
  clear hsplit
  induction pre with
  | nil => simp [sweepLoop, hskip, hre, hfail]
  | cons p pre' ih =>
    by_cases hps : videoSkip now p = true
    · have hpre' : (sweepLoop env now u pre').aborted = false := by
        simpa [sweepLoop, hps] using hpre
      simpa [sweepLoop, hps] using ih hpre'
    · by_cases hpe : refundEligible p = true
      · by_cases hok : env.refundOk (p.usage_log_id.getD "") = true
        · have hpre' : (sweepLoop env now u pre').aborted = false := by
            simpa [sweepLoop, hps, hpe, hok] using hpre
          have hrec := ih hpre'
          simp [sweepLoop, List.cons_append, hps, hpe, hok, hrec]
        · simp [sweepLoop, hps, hpe, hok] at hpre
      · have hpre' : (sweepLoop env now u pre').aborted = false := by
          simpa [sweepLoop, hps, hpe] using hpre
        have hrec := ih hpre'
        simp [sweepLoop, List.cons_append, hps, hpe, hrec]

/-- A stuck job processed before the failing one (`log0`, refund accepted). -/
def stuckC : JobRow :=
  { id := "jc", user_id := "u1", tool_id := "ViewSync", cost := 25
    usage_log_id := some "log0", status := JobStatus.processing
    result_url := none, error_message := none
    created_at := 98800000, updated_at := 98800000 }

/-- C9 witness: the amended theorem applied to three selected stuck jobs —
the first is reconciled, the second one's refund fails and aborts, the
third is left unprocessed. -/
theorem cleanup_refund_error_aborts_witness :
    cleanupStuckJobs envRefundFailFirst 100000000 "u1" [stuckC, stuckA, stuckB]
      = ⟨[("u1", 25, "log0")], [("jc", timeoutMsg)], true⟩ :=
  (cleanup_refund_error_aborts envRefundFailFirst 100000000 "u1"
      [stuckC, stuckA, stuckB] [stuckC] [stuckB] stuckA
      (by decide) (by decide) (by decide) (by decide) (by decide)).trans (by decide)

/- ## One generation attempt (`handleGenerate`, src/components/ViewSync.tsx
lines 267-338)

`numberOfImages` units are issued concurrently; each promise resolves to a
final URL or, on error or an empty `imageUrls`, to `null` (errors are
captured into `lastError`).  `Promise.all` preserves issue order, so the
first element of the filtered success list is the first successful URL.
The settlement models the tail of `handleGenerate`: the success branch
(line 323) and the catch branch (lines 324-336). -/

inductive UnitResult
  | ok (url : String)
  | failed (msg : String)
deriving Repr, DecidableEq

/-- The value a unit's promise resolves to. -/
def unitUrl : UnitResult → Option String
  | .ok u => some u
  | .failed _ => none

/-- JS `if (x) … f(x)` on a nullable string. -/
def whenTruthy {α : Type} (o : Option String) (f : String → α) : Option α :=
  match o with
  | some s => if s == "" then none else some (f s)
  | none => none

/-- The calls issued while settling one attempt: the
`updateStatus(…, completed, url)` call if any, whether a refund was
attempted against `logId`, and the `updateStatus(…, failed, …, msg)` call
if any. -/
structure SettleOutcome where
  completedCall : Option (String × String)
  refundAttempted : Bool
  failedCall : Option (String × String)
deriving Repr, DecidableEq

/-- Embedding of the settlement tail of `handleGenerate`: with at least one
successful unit the job is completed with the first successful URL and the
catch branch never runs; with none, the last captured error is thrown,
classified, refunded when a `logId` exists, and the job is marked failed. -/
def handleGenerateSettle (logId jobId : Option String) (results : List UnitResult)
    (lastErr : String) : SettleOutcome :=
  match results.filterMap unitUrl with
  | u :: _ => ⟨whenTruthy jobId (fun j => (j, u)), false, none⟩
  | [] => ⟨none, jsTruthy logId, whenTruthy jobId (fun j => (j, lastErr))⟩

/-- C4: when at least one of the concurrently issued units succeeds, the
attempt settles as an overall success: the job is marked `completed` with
the first successful URL as the `resultUrl` argument, no refund is
attempted for the failed units, and no failure update is issued. -/
theorem partial_success_completes (logId jobId : Option String)
    (results : List UnitResult) (lastErr u : String) (rest : List String)
    (h : results.filterMap unitUrl = u :: rest) :
    handleGenerateSettle logId jobId results lastErr
      = ⟨whenTruthy jobId (fun j => (j, u)), false, none⟩ := by
  unfold handleGenerateSettle
  rw [h]

/-- C4 witness: one unit fails and two succeed out of three; the job is
completed with the first successful URL and nothing is refunded. -/
theorem partial_success_completes_witness :
    handleGenerateSettle (some "log9") (some "job9")
        [UnitResult.failed "network", UnitResult.ok "https://gen/u1.png",
         UnitResult.ok "https://gen/u2.png"] "network"
      = ⟨some ("job9", "https://gen/u1.png"), false, none⟩ :=
  (partial_success_completes (some "log9") (some "job9")
      [UnitResult.failed "network", UnitResult.ok "https://gen/u1.png",
       UnitResult.ok "https://gen/u2.png"] "network"
      "https://gen/u1.png" ["https://gen/u2.png"] (by decide)).trans (by decide)

/- ## Per-job refund accounting (C1)

The two refund paths — the lifecycle failure handler of `handleGenerate`
(refund, then mark failed; refund errors swallowed) and the stuck-job
reaper — are modelled as atomic events acting on one job's row together
with a count of the refunds successfully issued against its
`usage_log_id`.  Both paths mark the job through the shared
`updateJobStatusRow`. -/

inductive LifeEvent
  | genSuccess (now : Int) (url : String) (ownerLookup persisted : Option String)
  | genFailure (now : Int) (rawMsg : String) (refundOk : Bool)
  | sweep (now : Int) (refundOk : Bool)
deriving Repr, DecidableEq

structure LedgerState where
  job : JobRow
  refunds : Nat
deriving Repr, DecidableEq

/-- Whether a sweep selects and acts on this job: `processing`, past the
15-minute selection threshold, and not inside the video grace window. -/
def sweepActsOn (now : Int) (j : JobRow) : Bool :=
  decide (j.status = JobStatus.processing) && decide (j.created_at < now - 900000)
    && !videoSkip now j

/-- One atomic event.  `genSuccess` is line 323 of ViewSync
(`updateJobStatus(jobId, completed, url)`); `genFailure` is lines 328-336
(refund attempted when a `logId` exists — a rejected refund is logged and
swallowed — then `updateJobStatus(jobId, failed, undefined, rawMsg)`);
`sweep` is one reaper visit to this job, whose failing refund aborts
before the job is marked. -/
def applyEvent (s : LedgerState) : LifeEvent → LedgerState
  | .genSuccess now url ownerLookup persisted =>
    { s with
      job := updateJobStatusRow now s.job JobStatus.completed (some url) none
        ownerLookup persisted }
  | .genFailure now rawMsg refundOk =>
    { job := updateJobStatusRow now s.job JobStatus.failed none (some rawMsg) none none
      refunds := if jsTruthy s.job.usage_log_id && refundOk then s.refunds + 1 else s.refunds }
  | .sweep now refundOk =>
    if sweepActsOn now s.job then
      if refundEligible s.job then
        if refundOk then
          { job := updateJobStatusRow now s.job JobStatus.failed none (some timeoutMsg) none none
            refunds := s.refunds + 1 }
        else s
      else
        { s with
          job := updateJobStatusRow now s.job JobStatus.failed none (some timeoutMsg) none none }
    else s

/-- A sequential per-job trace: the job's lifecycle outcome (if the attempt
ever settles), followed by any number of reaper sweeps whose refund calls
succeed. -/
def runTrace (s0 : LedgerState) (outcome : Option LifeEvent) (sweeps : List Int) :
    LedgerState :=
  sweeps.foldl (fun s n => applyEvent s (LifeEvent.sweep n true))
    (match outcome with
     | none => s0
     | some e => applyEvent s0 e)

/-- A lifecycle outcome event (not a sweep) whose refund call, if any,
succeeds. -/
def IsOutcomeOk : LifeEvent → Prop
  | .genSuccess _ _ _ _ => True
  | .genFailure _ _ ok => ok = true
  | .sweep _ _ => False

theorem updateJobStatusRow_status (now : Int) (row : JobRow) (st : JobStatus)
    (ru em ol p : Option String) :
    (updateJobStatusRow now row st ru em ol p).status = st := rfl

theorem updateJobStatusRow_usage_log_id (now : Int) (row : JobRow) (st : JobStatus)
    (ru em ol p : Option String) :
    (updateJobStatusRow now row st ru em ol p).usage_log_id = row.usage_log_id := rfl

theorem updateJobStatusRow_cost (now : Int) (row : JobRow) (st : JobStatus)
    (ru em ol p : Option String) :
    (updateJobStatusRow now row st ru em ol p).cost = row.cost := rfl

/-- The refund-accounting invariant: either the job is still `processing`
with no refund yet (and still refund-eligible), or it ended `completed`
with no refund, or it ended `failed` with exactly one refund. -/
def GoodState (s : LedgerState) : Prop :=
  (s.job.status = JobStatus.processing ∧ s.refunds = 0
    ∧ jsTruthy s.job.usage_log_id = true ∧ 0 < s.job.cost)
  ∨ (s.job.status = JobStatus.completed ∧ s.refunds = 0)
  ∨ (s.job.status = JobStatus.failed ∧ s.refunds = 1)

theorem sweep_preserves_good (n : Int) (s : LedgerState) (h : GoodState s) :
    GoodState (applyEvent s (LifeEvent.sweep n true)) := by
  rcases h with hp | hq | hq
  · obtain ⟨hst, hr, hlog, hc⟩ := hp
    by_cases hact : sweepActsOn n s.job = true
    · have hre : refundEligible s.job = true := by
        unfold refundEligible
        simp [hlog, hc]
      right; right
      refine ⟨?_, ?_⟩
      · simp [applyEvent, hact, hre, updateJobStatusRow_status]
      · simp [applyEvent, hact, hre, hr]
    · have heq : applyEvent s (LifeEvent.sweep n true) = s := by
        simp [applyEvent, hact]
      rw [heq]
      exact Or.inl ⟨hst, hr, hlog, hc⟩
  · have hact : sweepActsOn n s.job = false := by
      unfold sweepActsOn
      simp [hq.1]
    have heq : applyEvent s (LifeEvent.sweep n true) = s := by
      simp [applyEvent, hact]
    rw [heq]
    exact Or.inr (Or.inl hq)
  · have hact : sweepActsOn n s.job = false := by
      unfold sweepActsOn
      simp [hq.1]
    have heq : applyEvent s (LifeEvent.sweep n true) = s := by
      simp [applyEvent, hact]
    rw [heq]
    exact Or.inr (Or.inr hq)

theorem foldl_sweeps_good (sweeps : List Int) :
    ∀ s : LedgerState, GoodState s →
      GoodState (sweeps.foldl (fun s n => applyEvent s (LifeEvent.sweep n true)) s) := by
  induction sweeps with
  | nil => intro s h; exact h
  | cons n rest ih =>
    intro s h
    exact ih _ (sweep_preserves_good n s h)

theorem good_conclusions (s : LedgerState) (hg : GoodState s) :
    s.refunds ≤ 1
    ∧ (s.job.status = JobStatus.completed → s.refunds = 0)
    ∧ (s.job.status = JobStatus.failed → s.refunds = 1)
    ∧ (s.refunds = 1 → s.job.status = JobStatus.failed) := by
  rcases hg with ⟨hst, hr, -, -⟩ | ⟨hst, hr⟩ | ⟨hst, hr⟩
  · refine ⟨by omega, ?_, ?_, ?_⟩
    · intro hx; rw [hst] at hx; exact absurd hx (by decide)
    · intro hx; rw [hst] at hx; exact absurd hx (by decide)
    · intro hx; rw [hr] at hx; exact absurd hx (by decide)
  · refine ⟨by omega, fun _ => hr, ?_, ?_⟩
    · intro hx; rw [hst] at hx; exact absurd hx (by decide)
    · intro hx; rw [hr] at hx; exact absurd hx (by decide)
  · exact ⟨by omega, fun hx => absurd (hst ▸ hx) (by decide), fun _ => hr, fun _ => hst⟩

/-- C1 (amended): for a job created `processing` with a usage-log id and a
positive cost, in any sequential execution where the lifecycle outcome (if
the attempt settles at all) is recorded before any sweep visits the job and
where every attempted refund call succeeds, the job's `cost` is refunded at
most once, never when it ends `completed`, and exactly once if and only if
its terminal status is `failed` — across both the lifecycle failure handler
and the stuck-job reaper. -/
theorem refund_accounting (job0 : JobRow) (h0 : job0.status = JobStatus.processing)
    (hlog : jsTruthy job0.usage_log_id = true) (hc : 0 < job0.cost)
    (outcome : Option LifeEvent) (hout : ∀ e, outcome = some e → IsOutcomeOk e)
    (sweeps : List Int) :
    (runTrace ⟨job0, 0⟩ outcome sweeps).refunds ≤ 1
    ∧ ((runTrace ⟨job0, 0⟩ outcome sweeps).job.status = JobStatus.completed →
        (runTrace ⟨job0, 0⟩ outcome sweeps).refunds = 0)
    ∧ ((runTrace ⟨job0, 0⟩ outcome sweeps).job.status = JobStatus.failed →
        (runTrace ⟨job0, 0⟩ outcome sweeps).refunds = 1)
    ∧ ((runTrace ⟨job0, 0⟩ outcome sweeps).refunds = 1 →
        (runTrace ⟨job0, 0⟩ outcome sweeps).job.status = JobStatus.failed) := by
  apply good_conclusions
  unfold runTrace
  apply foldl_sweeps_good
  cases outcome with
  | none => exact Or.inl ⟨h0, rfl, hlog, hc⟩
  | some e =>
    cases e with
    | genSuccess now url ol p =>
      exact Or.inr (Or.inl ⟨updateJobStatusRow_status now job0 JobStatus.completed
        (some url) none ol p, rfl⟩)
    | genFailure now msg ok =>
      have hok : ok = true := by
        have := hout _ rfl
        simpa [IsOutcomeOk] using this
      right; right
      refine ⟨updateJobStatusRow_status now job0 JobStatus.failed none (some msg) none none, ?_⟩
      simp [applyEvent, hlog, hok]
    | sweep now ok =>
      exact absurd (hout _ rfl) (by simp [IsOutcomeOk])

/-- The job every refund-accounting scenario starts from: `processing`,
cost 20, reserved under `log1`. -/
def procJob : JobRow :=
  { id := "j1", user_id := "u1", tool_id := "ViewSync", cost := 20
    usage_log_id := some "log1", status := JobStatus.processing
    result_url := none, error_message := none, created_at := 0, updated_at := 0 }

/-- C1 counterexample: the generation fails and the refund call itself
rejects — `handleGenerate` logs and swallows the refund error and still
marks the job failed, so the job's terminal status is `failed` with zero
refunds, refuting "refunded exactly once if and only if the job's terminal
status is `failed`". -/
theorem refund_skipped_on_failure_cex :
    (runTrace ⟨procJob, 0⟩ (some (LifeEvent.genFailure 100 "network error" false)) []).job.status
        = JobStatus.failed
    ∧ (runTrace ⟨procJob, 0⟩ (some (LifeEvent.genFailure 100 "network error" false)) []).refunds
        = 0 :=
  ⟨by decide, by decide⟩

/-- C1 witness: a failing attempt whose refund succeeds, followed by a
late sweep — one refund, terminal status `failed`, and the sweep does not
refund again. -/
theorem refund_accounting_witness :
    (runTrace ⟨procJob, 0⟩ (some (LifeEvent.genFailure 100 "SAFETY_ERROR: blocked" true))
        [4000000]).refunds ≤ 1
    ∧ ((runTrace ⟨procJob, 0⟩ (some (LifeEvent.genFailure 100 "SAFETY_ERROR: blocked" true))
        [4000000]).job.status = JobStatus.completed →
        (runTrace ⟨procJob, 0⟩ (some (LifeEvent.genFailure 100 "SAFETY_ERROR: blocked" true))
          [4000000]).refunds = 0)
    ∧ ((runTrace ⟨procJob, 0⟩ (some (LifeEvent.genFailure 100 "SAFETY_ERROR: blocked" true))
        [4000000]).job.status = JobStatus.failed →
        (runTrace ⟨procJob, 0⟩ (some (LifeEvent.genFailure 100 "SAFETY_ERROR: blocked" true))
          [4000000]).refunds = 1)
    ∧ ((runTrace ⟨procJob, 0⟩ (some (LifeEvent.genFailure 100 "SAFETY_ERROR: blocked" true))
        [4000000]).refunds = 1 →
        (runTrace ⟨procJob, 0⟩ (some (LifeEvent.genFailure 100 "SAFETY_ERROR: blocked" true))
          [4000000]).job.status = JobStatus.failed) :=
  refund_accounting procJob rfl (by decide) (by decide)
    (some (LifeEvent.genFailure 100 "SAFETY_ERROR: blocked" true))
    (by intro e he; cases he; exact rfl) [4000000]
